import Mathlib

/-!
Verification of `FFBAnalysis.py`: a shallow embedding of the scoring
calculation (`PlayerProfile.CalculatePlayerPoints`), the default scoring
table (`LeagueSettings`), and the registry (`FFBAnalyzer`), followed by
theorems about the embedded operations.

Conventions of the embedding:
- Statistical values are rationals; a cell is either a number or the
  `'--'` "no data" sentinel.
- A dataframe (`StatTable`) keeps the four identity columns the code
  reads (`Name`, `Season`, `Week`, `Year`) as structured fields and the
  statistical columns (`list(df)[12:]` in the code) as `statCols`
  together with a per-row `stats` function.
- Fallible Python code becomes `Except PyErr` (or a state/error pair
  where the code mutates `self` before raising); `PyErr` names the
  Python exception class actually raised.
-/

namespace FFB

/-- Python exceptions the embedded code can raise. `valueError` is the
tuple-unpacking failure of `name.split(' ', maxsplit=1)` (the spec's
InvalidPlayerName); `nameError` covers `NameError`/`UnboundLocalError`
(the data-not-loaded guard of `AddPlayer` and the unbound names in
`AddPlayers`/the table-search loop); `attributeError` is reading an
attribute `__init__` never assigned; `typeError` is a call missing a
required positional argument. -/
inductive PyErr where
  | valueError
  | nameError
  | attributeError
  | typeError
deriving DecidableEq, Repr

/-- Python `str.upper()` on ASCII text. -/
def pyUpper (s : String) : String := ⟨s.toList.map Char.toUpper⟩

/-- Characters of Python `str.title()`: an alphabetic character is
uppercased after a non-alphabetic one and lowercased otherwise; the
Boolean carries whether the previous character was alphabetic. -/
def pyTitleAux : Bool → List Char → List Char
  | _, [] => []
  | prevAlpha, c :: cs =>
      (if c.isAlpha then (if prevAlpha then c.toLower else c.toUpper) else c)
        :: pyTitleAux c.isAlpha cs

/-- Python `str.title()` on ASCII text. -/
def pyTitle (s : String) : String := ⟨pyTitleAux false s.toList⟩

/-- Split a character list at the first space, when there is one. -/
def splitFirstSpace : List Char → Option (List Char × List Char)
  | [] => none
  | c :: cs =>
      if c = ' ' then some ([], cs)
      else
        match splitFirstSpace cs with
        | none => none
        | some (a, b) => some (c :: a, b)

/-- Python `s.split(' ', maxsplit=1)`: one part when `s` has no space,
otherwise the text before the first space and all of the rest. -/
def pySplit1 (s : String) : List String :=
  match splitFirstSpace s.toList with
  | none => [s]
  | some (a, b) => [⟨a⟩, ⟨b⟩]

/-- Python `s.replace('_', ' ')`. -/
def underscoreToSpace (s : String) : String :=
  ⟨s.toList.map fun c => if c = '_' then ' ' else c⟩

/-- Line 100 of the code: `key.replace('_', ' ').title()`, turning a
settings attribute name into a column header. -/
def attrToCol (s : String) : String := pyTitle (underscoreToSpace s)

/-- One statistical cell: a numeric value or the `'--'` sentinel. -/
inductive Cell where
  | dash
  | num (q : ℚ)
deriving DecidableEq, Repr

/-- Lines 83 and 93: `replace('--', 0)` followed by `astype(float)` make
the sentinel count as zero and leave numbers unchanged. -/
def Cell.val : Cell → ℚ
  | .dash => 0
  | .num q => q

/-- One game-log row. `name`, `season`, `week` and `year` are among the
first twelve identity columns of the CSV; `stats` gives the cell of each
statistical column (the columns from position 12 on). -/
structure StatRow where
  name : String
  season : String
  week : Int
  year : Int
  stats : String → Cell

/-- One loaded game-log dataframe: the labels of its statistical columns
(`list(df)[12:]`) and its rows. -/
structure StatTable where
  statCols : List String
  rows : List StatRow

/-- Lines 53-54: split the player name into first and last part, build
`'%s, %s' % (last.title(), first.title())` and uppercase it, as the
comparisons of lines 58 and 64 do. Unpacking the split into two
variables raises `ValueError` when the name holds no space. -/
def normalizeName (nm : String) : Except PyErr String :=
  match pySplit1 nm with
  | [firstPart, lastPart] =>
      .ok (pyUpper (pyTitle lastPart ++ ", " ++ pyTitle firstPart))
  | _ => .error .valueError

/-- Line 58: whether the table's `Name` column, uppercased, contains the
uppercased normalized name. -/
def tableContains (t : StatTable) (comboU : String) : Bool :=
  t.rows.any fun r => pyUpper r.name == comboU

/-- Lines 57-62: the `for df_single in df_list` loop with `break`. The
loop variable keeps the first table containing the name; when NO table
contains it the loop simply ends and `df_single` holds the LAST table of
the list — the code raises no PlayerNotFound error. On an empty list
`df_single` is never bound and line 62 raises a `NameError`
(`UnboundLocalError`). -/
def findTable (comboU : String) : List StatTable → Except PyErr StatTable
  | [] => .error .nameError
  | [t] => .ok t
  | t :: t2 :: ts =>
      if tableContains t comboU then .ok t else findTable comboU (t2 :: ts)

/-- Lines 64-78: the row mask — name matches; season is
`Regular Season` (or also `Postseason` when `includePost`); and, when
`removeWeek17`, the week differs from 17. -/
def rowPass (comboU : String) (includePost removeWeek17 : Bool) (r : StatRow) : Bool :=
  (pyUpper r.name == comboU)
    && (if includePost then
          r.season == "Regular Season" || r.season == "Postseason"
        else r.season == "Regular Season")
    && (if removeWeek17 then r.week != 17 else true)

/-- Line 80: `df_player = df[check_bool]`. -/
def filterPlayerRows (t : StatTable) (comboU : String)
    (includePost removeWeek17 : Bool) : List StatRow :=
  t.rows.filter (rowPass comboU includePost removeWeek17)

/-- Insert into a strictly ascending list, dropping duplicates. -/
def insDedup (x : Int) : List Int → List Int
  | [] => [x]
  | y :: ys =>
      if x < y then x :: y :: ys
      else if x = y then y :: ys
      else y :: insDedup x ys

/-- Line 86: `np.unique` — the distinct values in ascending order. -/
def npUnique (l : List Int) : List Int := l.foldr insDedup []

/-- Line 85: the two non-additive columns dropped before summation. -/
def exceptionCols : List String := ["Longest Reception", "Longest Rushing Run"]

/-- Lines 91-92: the columns that are summed — the statistical columns
minus the two exception columns (`drop(..., errors='ignore')`). -/
def sumKeys (t : StatTable) : List String :=
  t.statCols.filter fun c => !(exceptionCols.contains c)

/-- Line 95: one column's total over the given rows, the sentinel
counting as zero. -/
def yearTotal (rows : List StatRow) (c : String) : ℚ :=
  (rows.map fun r => (r.stats c).val).sum

/-- Lines 97-103: the weighted sum over the settings attributes; a
settings attribute whose column header is not among the summed columns
raises `KeyError`, which the code catches and skips. -/
def yearPoints (t : StatTable) (rows : List StatRow)
    (settings : List (String × ℚ)) : ℚ :=
  (settings.map fun kv =>
      if (sumKeys t).contains (attrToCol kv.1) then
        yearTotal rows (attrToCol kv.1) * kv.2
      else 0).sum

/-- `PlayerProfile.CalculatePlayerPoints` (lines 51-109) as a function
from its inputs to the `(year, points)` series the method stores in
`self.league_points`: normalize the name, pick the table, filter the
rows, and map each distinct year (ascending, by `np.unique`) to its
weighted point total. -/
def CalculatePlayerPoints (nm : String) (tables : List StatTable)
    (settings : List (String × ℚ)) (includePost removeWeek17 : Bool) :
    Except PyErr (List (Int × ℚ)) :=
  match normalizeName nm with
  | .error e => .error e
  | .ok combo =>
      match findTable combo tables with
      | .error e => .error e
      | .ok t =>
          let rows := filterPlayerRows t combo includePost removeWeek17
          .ok ((npUnique (rows.map (·.year))).map fun y =>
            (y, yearPoints t (rows.filter fun r => r.year == y) settings))

/-- `LeagueSettings.__init__` (lines 11-36): the attribute/weight pairs
in definition order, which is the iteration order of
`league_settings.__dict__.items()` at line 98. -/
def defaultLeagueSettings : List (String × ℚ) :=
  [("passing_yards", 0.04), ("passing_tds", 4), ("interceptions", -1),
   ("rushing_yards", 0.1), ("rushing_tds", 6),
   ("receptions", 0.5), ("receiving_yards", 0.1), ("receiving_tds", 6),
   ("two_pt_conversions", 2), ("fumbles_lost", -2),
   ("offensive_fumble_return_tds", 6), ("yards_40_plus", 0), ("tds_40_plus", 0),
   ("fg_20", 3), ("fg_30", 3), ("fg_40", 3), ("fg_50", 4), ("fg_50_plus", 5),
   ("extra_point", 1)]

/-- The default-weight table exactly as the spec's section 4.1 lists it,
category names written with spaces. Written from the spec's words, to be
compared with `defaultLeagueSettings` (which is written from the code). -/
def specDefaultWeights : List (String × ℚ) :=
  [("passing yards", 0.04), ("passing tds", 4), ("interceptions", -1),
   ("rushing yards", 0.1), ("rushing tds", 6),
   ("receptions", 0.5), ("receiving yards", 0.1), ("receiving tds", 6),
   ("two pt conversions", 2), ("fumbles lost", -2),
   ("offensive fumble return tds", 6), ("yards 40 plus", 0), ("tds 40 plus", 0),
   ("fg 20", 3), ("fg 30", 3), ("fg 40", 3), ("fg 50", 4), ("fg 50 plus", 5),
   ("extra point", 1)]

/-- A tracked player: the identity plus the stored point series (`None`
until `CalculatePlayerPoints` assigns it). The always-`None` fields of
the Python class (`player_id`, `current_status`, `years_played`,
`number`, `position`) are omitted: nothing ever assigns them. -/
structure PlayerProfile where
  name : String
  league_points : Option (List (Int × ℚ))
deriving DecidableEq

/-- `FFBAnalyzer`'s state. `dl_list` distinguishes the attribute never
having been assigned (`none` — `__init__` does NOT create it), the
attribute holding `None` (`some none` — no code path produces this), and
the list built by `LoadNflData` (`some (some tables)`). -/
structure FFBAnalyzer where
  players : List PlayerProfile
  league_settings : List (String × ℚ)
  dl_list : Option (Option (List StatTable))

/-- `FFBAnalyzer.__init__` with `filepath=None` (lines 125-139): empty
player list, the given settings, and NO `dl_list` attribute — the
constructor only creates the seven `df_*` attributes. -/
def freshAnalyzer (settings : List (String × ℚ)) : FFBAnalyzer :=
  { players := [], league_settings := settings, dl_list := none }

/-- Lines 159-165: the order in which `LoadNflData` assembles `dl_list`:
kickers, punters, quarterbacks, running backs, receivers/tight ends,
defensive line, offensive line. -/
def dlListOf (k p qb rb wr dline oline : StatTable) : List StatTable :=
  [k, p, qb, rb, wr, dline, oline]

/-- `FFBAnalyzer.LoadNflData` (lines 141-165), with the seven tables
already parsed (CSV reading is the external collaborator's job). -/
def LoadNflData (st : FFBAnalyzer) (k p qb rb wr dline oline : StatTable) :
    FFBAnalyzer :=
  { st with dl_list := some (some (dlListOf k p qb rb wr dline oline)) }

/-- `FFBAnalyzer.AddPlayer` (lines 179-187). Reading `self.dl_list` on a
fresh instance raises `AttributeError` (only `LoadNflData` creates the
attribute), so the `is None` guard that would raise the
data-not-loaded `NameError` of line 183 is unreachable through
`__init__`/`LoadNflData`. On success the new profile is appended to
`self.players`; an exception inside `CalculatePlayerPoints` propagates
before that assignment, leaving the state unchanged. -/
def AddPlayer (st : FFBAnalyzer) (nm : String) :
    Except PyErr (FFBAnalyzer × PlayerProfile) :=
  match st.dl_list with
  | none => .error .attributeError
  | some none => .error .nameError
  | some (some tables) =>
      match CalculatePlayerPoints nm tables st.league_settings false true with
      | .error e => .error e
      | .ok pts =>
          let p : PlayerProfile := { name := nm, league_points := some pts }
          .ok ({ st with players := st.players ++ [p] }, p)

/-- `FFBAnalyzer.UpdatePlayerScores` (lines 167-173). `self.players` is
always a list, so the guard holds; with at least one player the first
loop iteration evaluates `player.CalculatePlayerPoints(self.dl_list)`:
Python first reads `self.dl_list` (`AttributeError` when the attribute
was never created) and then raises `TypeError`, the required positional
argument `league_settings` being missing. The exception occurs before
`self.players = players_new`, so the player list keeps its old,
never-recomputed profiles. With no players the loop body never runs. -/
def UpdatePlayerScores (st : FFBAnalyzer) : Except PyErr FFBAnalyzer :=
  match st.players with
  | [] => .ok st
  | _ :: _ =>
      match st.dl_list with
      | none => .error .attributeError
      | some _ => .error .typeError

/-- `FFBAnalyzer.ChangeLeagueSettings` (lines 175-177): assign the new
settings, then run `UpdatePlayerScores`; an exception there escapes with
the settings already replaced and the player list untouched. The result
pairs the state as Python leaves it with the raised exception, if any. -/
def ChangeLeagueSettings (st : FFBAnalyzer) (newSettings : List (String × ℚ)) :
    FFBAnalyzer × Option PyErr :=
  let st1 := { st with league_settings := newSettings }
  match UpdatePlayerScores st1 with
  | .ok st2 => (st2, none)
  | .error e => (st1, some e)

/-- `FFBAnalyzer.AddPlayers` (lines 189-191): the loop header is
`for player in players:`, and `players` is neither the parameter
(`player_names`) nor a local, attribute or module global — the very
first name lookup raises `NameError` (`name 'players' is not defined`),
before any `AddPlayer` call, whatever the argument; the state is
unchanged. -/
def AddPlayers (st : FFBAnalyzer) (names : List String) :
    FFBAnalyzer × Option PyErr :=
  (st, some .nameError)

/-- A one-row game log for concrete runs: John Smith, regular season,
week 3 of 2010, 100 passing yards. -/
def sampleRow : StatRow :=
  { name := "Smith, John", season := "Regular Season", week := 3, year := 2010,
    stats := fun c => if c = "Passing Yards" then .num 100 else .dash }

/-- A table containing `sampleRow`. -/
def sampleTable : StatTable :=
  { statCols := ["Passing Yards"], rows := [sampleRow] }

/-- A table with the same columns and no rows. -/
def emptyTable : StatTable :=
  { statCols := ["Passing Yards"], rows := [] }

/-- A registry that loaded `sampleTable` as the kickers table and empty
tables for the six other position groups. -/
def loadedAnalyzer : FFBAnalyzer :=
  LoadNflData (freshAnalyzer defaultLeagueSettings)
    sampleTable emptyTable emptyTable emptyTable emptyTable emptyTable emptyTable

/-- The profile `AddPlayer "John Smith"` builds on `loadedAnalyzer`:
under the default rules the 100 passing yards of 2010 are worth
`100 * 0.04 = 4` points. -/
def addedProfile : PlayerProfile :=
  { name := "John Smith", league_points := some [(2010, 4)] }

/-- `loadedAnalyzer` after that successful `AddPlayer`. -/
def analyzerAfterAdd : FFBAnalyzer :=
  { loadedAnalyzer with players := loadedAnalyzer.players ++ [addedProfile] }

/-- `loadedAnalyzer` with John Smith's profile already stored, its series
computed under the default rules. -/
def staleAnalyzer : FFBAnalyzer :=
  { loadedAnalyzer with players := [addedProfile] }

/-- Replacement rules that weight a passing yard at a full point. -/
def newSettings : List (String × ℚ) := [("passing_yards", 1)]

/-! Helper lemmas about `insDedup` / `npUnique`. -/

theorem mem_insDedup (x y : Int) : ∀ l : List Int,
    y ∈ insDedup x l ↔ y = x ∨ y ∈ l := by
  intro l
  induction l with
  | nil => simp [insDedup]
  | cons a as ih =>
      rw [insDedup]
      by_cases h1 : x < a
      · rw [if_pos h1]
        simp [List.mem_cons]
      · rw [if_neg h1]
        by_cases h2 : x = a
        · rw [if_pos h2]
          subst h2
          simp only [List.mem_cons]
          tauto
        · rw [if_neg h2]
          simp only [List.mem_cons, ih]
          tauto

theorem sorted_insDedup (x : Int) : ∀ l : List Int,
    l.Sorted (· < ·) → (insDedup x l).Sorted (· < ·) := by
  intro l
  induction l with
  | nil => intro _; simp [insDedup]
  | cons a as ih =>
      intro h
      rw [List.sorted_cons] at h
      obtain ⟨ha, has⟩ := h
      by_cases h1 : x < a
      · rw [insDedup, if_pos h1, List.sorted_cons]
        refine ⟨?_, List.sorted_cons.mpr ⟨ha, has⟩⟩
        intro b hb
        rcases List.mem_cons.mp hb with rfl | hb2
        · exact h1
        · exact h1.trans (ha b hb2)
      · by_cases h2 : x = a
        · rw [insDedup, if_neg h1, if_pos h2, List.sorted_cons]
          exact ⟨ha, has⟩
        · rw [insDedup, if_neg h1, if_neg h2, List.sorted_cons]
          refine ⟨?_, ih has⟩
          intro b hb
          rcases (mem_insDedup x b as).mp hb with rfl | hb2
          · omega
          · exact ha b hb2

theorem npUnique_sorted (l : List Int) : (npUnique l).Sorted (· < ·) := by
  induction l with
  | nil => simp [npUnique]
  | cons a as ih => exact sorted_insDedup a (npUnique as) ih

theorem mem_npUnique (l : List Int) (y : Int) : y ∈ npUnique l ↔ y ∈ l := by
  induction l with
  | nil => simp [npUnique]
  | cons a as ih =>
      show y ∈ insDedup a (npUnique as) ↔ _
      rw [mem_insDedup a y (npUnique as), ih]
      exact (List.mem_cons).symm

/-- When no table contains the name, the search loop ends on the last
table of a nonempty list, a table that does not contain the name. -/
theorem findTable_of_none (combo : String) : ∀ tables : List StatTable,
    (∀ t ∈ tables, tableContains t combo = false) → tables ≠ [] →
    ∃ tl, findTable combo tables = .ok tl ∧ tableContains tl combo = false := by
  intro tables
  induction tables with
  | nil => intro _ hne; exact absurd rfl hne
  | cons t ts ih =>
      intro hall _
      cases ts with
      | nil => exact ⟨t, rfl, hall t (by simp)⟩
      | cons t2 ts2 =>
          have ht : tableContains t combo = false := hall t (by simp)
          obtain ⟨tl, h1, h2⟩ :=
            ih (fun u hu => hall u (List.mem_cons_of_mem _ hu)) (by simp)
          refine ⟨tl, ?_, h2⟩
          rw [findTable, if_neg (by rw [ht]; exact Bool.false_ne_true)]
          exact h1

/-! The claims. -/

/-- C5: a default-constructed `LeagueSettings` maps each category to
exactly the weight in the spec's fixed table, and no other category:
transported to the spec's space-separated category names, the attribute
list of `LeagueSettings.__init__` equals the spec's table. -/
theorem c5_default_weights :
    defaultLeagueSettings.map (fun kv => (underscoreToSpace kv.1, kv.2)) =
      specDefaultWeights := by
  with_unfolding_all rfl

/-- C3 (code bug): on a freshly constructed, unloaded registry,
`AddPlayer "John Smith"` fails — but with `AttributeError` (the
`dl_list` attribute was never created by `__init__`), not with the
data-not-loaded `NameError` that line 183 intends to raise; no profile
is stored either way. -/
theorem c3_fresh_addPlayer_attributeError :
    AddPlayer (freshAnalyzer defaultLeagueSettings) "John Smith" =
      .error .attributeError := rfl

/-- C9 (code bug): `AddPlayers` raises `NameError` on its first step —
the loop iterates over the unbound name `players` instead of the
parameter — so no name of the list is ever added and the registry state
is returned unchanged. -/
theorem c9_addPlayers_nameError :
    AddPlayers loadedAnalyzer ["John Smith", "Jane Doe"] =
      (loadedAnalyzer, some PyErr.nameError) ∧
    (AddPlayers loadedAnalyzer ["John Smith", "Jane Doe"]).1.players =
      loadedAnalyzer.players :=
  ⟨rfl, rfl⟩

/-- C1 counterexample: a name ("John Smith") absent from all seven
loaded tables does NOT make `CalculatePlayerPoints` fail: the search
loop falls through to the last table and the call returns an empty
series, refuting "fails with PlayerNotFound". -/
theorem c1_counterexample :
    CalculatePlayerPoints "John Smith"
      (dlListOf emptyTable emptyTable emptyTable emptyTable emptyTable
        emptyTable emptyTable)
      defaultLeagueSettings false true = .ok [] := rfl

/-- Unfolding of `CalculatePlayerPoints` once the name normalizes and
the table search returns a table. -/
theorem calc_eq (nm : String) (tables : List StatTable)
    (settings : List (String × ℚ)) (includePost removeWeek17 : Bool)
    (combo : String) (t : StatTable)
    (hn : normalizeName nm = .ok combo)
    (ht : findTable combo tables = .ok t) :
    CalculatePlayerPoints nm tables settings includePost removeWeek17 =
      .ok ((npUnique ((filterPlayerRows t combo includePost removeWeek17).map
          (·.year))).map fun y =>
        (y, yearPoints t ((filterPlayerRows t combo includePost
            removeWeek17).filter fun r => r.year == y) settings)) := by
  unfold CalculatePlayerPoints
  simp only [hn, ht]

/-- C4: for a valid player found in a stat table (in particular one
present in exactly one table), the series returned by
`CalculatePlayerPoints` has one entry per distinct year of the player's
filtered rows and its years are strictly ascending: the year column of
the output is `np.unique` of the filtered rows' years, strictly sorted,
and it holds a year exactly when some filtered row has that year. -/
theorem c4_year_series (nm : String) (tables : List StatTable)
    (settings : List (String × ℚ)) (includePost removeWeek17 : Bool)
    (combo : String) (t : StatTable) (out : List (Int × ℚ))
    (hn : normalizeName nm = .ok combo)
    (ht : findTable combo tables = .ok t)
    (hone : (tables.filter fun u => tableContains u combo).length = 1)
    (hok : CalculatePlayerPoints nm tables settings includePost removeWeek17 =
      .ok out) :
    (out.map Prod.fst).Sorted (· < ·) ∧
    out.map Prod.fst =
      npUnique ((filterPlayerRows t combo includePost removeWeek17).map
        (·.year)) ∧
    ∀ y : Int, y ∈ out.map Prod.fst ↔
      y ∈ (filterPlayerRows t combo includePost removeWeek17).map (·.year) := by
  rw [calc_eq nm tables settings includePost removeWeek17 combo t hn ht] at hok
  simp only [Except.ok.injEq] at hok
  have hout : out.map Prod.fst =
      npUnique ((filterPlayerRows t combo includePost removeWeek17).map
        (·.year)) := by
    rw [← hok, List.map_map]
    exact List.map_id' _
  exact ⟨by rw [hout]; exact npUnique_sorted _, hout,
    fun y => by rw [hout, mem_npUnique]⟩

/-- C4 witness: the sample run for John Smith yields exactly one entry,
for the one year 2010 of his one filtered row. -/
theorem c4_year_series_witness :
    (([((2010 : Int), (4 : ℚ))].map Prod.fst).Sorted (· < ·)) ∧
    [((2010 : Int), (4 : ℚ))].map Prod.fst =
      npUnique ((filterPlayerRows sampleTable "SMITH, JOHN" false true).map
        (·.year)) ∧
    ∀ y : Int, y ∈ [((2010 : Int), (4 : ℚ))].map Prod.fst ↔
      y ∈ (filterPlayerRows sampleTable "SMITH, JOHN" false true).map
        (·.year) :=
  c4_year_series "John Smith" [sampleTable] defaultLeagueSettings false true
    "SMITH, JOHN" sampleTable [((2010 : Int), (4 : ℚ))] rfl rfl rfl
    (by with_unfolding_all rfl)

/-- C6: with `includePostSeason=true` the retained rows are exactly the
player's week-filtered rows whose season is `Regular Season` OR
`Postseason` (a union); the rows retained with `includePostSeason=false`
form a sublist of them; hence for each year the row count feeding the
aggregate with `true` is at least the count with `false`. -/
theorem c6_postseason_superset (t : StatTable) (combo : String)
    (removeWeek17 : Bool) (y : Int) :
    (∀ r, r ∈ filterPlayerRows t combo true removeWeek17 ↔
        r ∈ t.rows ∧ pyUpper r.name = combo ∧
          (removeWeek17 = true → r.week ≠ 17) ∧
          (r.season = "Regular Season" ∨ r.season = "Postseason")) ∧
    (filterPlayerRows t combo false removeWeek17).Sublist
      (filterPlayerRows t combo true removeWeek17) ∧
    ((filterPlayerRows t combo false removeWeek17).filter
        fun r => r.year == y).length ≤
      ((filterPlayerRows t combo true removeWeek17).filter
        fun r => r.year == y).length := by
  have hsub : (filterPlayerRows t combo false removeWeek17).Sublist
      (filterPlayerRows t combo true removeWeek17) := by
    unfold filterPlayerRows
    apply List.monotone_filter_right
    intro r hr
    unfold rowPass at hr ⊢
    cases removeWeek17 <;> simp_all
  refine ⟨?_, hsub, (hsub.filter _).length_le⟩
  intro r
  unfold filterPlayerRows rowPass
  rw [List.mem_filter]
  cases removeWeek17 <;> simp <;> tauto

/-- Rows with the two exception columns overwritten by an arbitrary
cell; used to state that the summation never reads those columns. -/
def overrideExceptionCols (v : Cell) (r : StatRow) : StatRow :=
  { r with stats := fun c => if exceptionCols.contains c then v else r.stats c }

/-- A column that is not an exception column has the same total after
the exception columns are overwritten. -/
theorem yearTotal_override (v : Cell) (rows : List StatRow) (c : String)
    (hc : exceptionCols.contains c = false) :
    yearTotal (rows.map (overrideExceptionCols v)) c = yearTotal rows c := by
  unfold yearTotal
  rw [List.map_map]
  congr 1
  apply List.map_congr_left
  intro r _
  have hc2 : c ∉ exceptionCols := by simpa using hc
  simp [Function.comp, overrideExceptionCols, hc2]

/-- C7: in the per-year aggregation, a retained `'--'` cell contributes
exactly 0 — a column's total equals its total over just the rows whose
cell is not the sentinel — and the columns `Longest Reception` and
`Longest Rushing Run` are excluded from the summation even when present:
neither is among the summed keys, and overwriting their cells with any
value in every row leaves the per-year points unchanged. -/
theorem c7_sentinel_and_exceptions (t : StatTable) (rows : List StatRow)
    (settings : List (String × ℚ)) (c : String) (v : Cell) :
    ("Longest Reception" ∉ sumKeys t ∧ "Longest Rushing Run" ∉ sumKeys t) ∧
    yearTotal rows c =
      yearTotal (rows.filter fun r => !(r.stats c == Cell.dash)) c ∧
    yearPoints t (rows.map (overrideExceptionCols v)) settings =
      yearPoints t rows settings := by
  refine ⟨⟨?_, ?_⟩, ?_, ?_⟩
  · simp [sumKeys, List.mem_filter, exceptionCols]
  · simp [sumKeys, List.mem_filter, exceptionCols]
  · induction rows with
    | nil => simp [yearTotal]
    | cons r rs ih =>
        by_cases hd : r.stats c = Cell.dash
        · rw [List.filter_cons_of_neg (by simp [hd])]
          unfold yearTotal at ih ⊢
          simp only [List.map_cons, List.sum_cons]
          rw [ih, hd]
          simp [Cell.val]
        · rw [List.filter_cons_of_pos (by simp [hd])]
          unfold yearTotal at ih ⊢
          simp only [List.map_cons, List.sum_cons]
          rw [ih]
  · unfold yearPoints
    congr 1
    apply List.map_congr_left
    intro kv _
    by_cases hc2 : ((sumKeys t).contains (attrToCol kv.1)) = true
    · rw [if_pos hc2, if_pos hc2]
      have hmem : attrToCol kv.1 ∈ sumKeys t := by simpa using hc2
      have hnotexc : attrToCol kv.1 ∉ exceptionCols := by
        unfold sumKeys at hmem
        rw [List.mem_filter] at hmem
        simpa using hmem.2
      rw [yearTotal_override v rows (attrToCol kv.1) (by simpa using hnotexc)]
    · rw [if_neg hc2, if_neg hc2]

/-- C1 (amended): the table used by `CalculatePlayerPoints` is the first
one containing the normalized name in the fixed priority order kickers,
punters, quarterbacks, running backs, receivers/tight ends, defensive
line, offensive line — but when NO loaded table contains the name the
call does not fail with any PlayerNotFound error: the search loop falls
through to the last table of the priority order and the call returns an
empty point series. -/
theorem c1_first_table_and_fallthrough :
    (∀ (k p qb rb wr dline oline : StatTable) (combo : String),
      findTable combo (dlListOf k p qb rb wr dline oline) = .ok
        (if tableContains k combo then k
         else if tableContains p combo then p
         else if tableContains qb combo then qb
         else if tableContains rb combo then rb
         else if tableContains wr combo then wr
         else if tableContains dline combo then dline
         else oline)) ∧
    (∀ (nm combo : String) (tables : List StatTable)
      (settings : List (String × ℚ)) (includePost removeWeek17 : Bool),
      normalizeName nm = .ok combo →
      (∀ u ∈ tables, tableContains u combo = false) →
      tables ≠ [] →
      CalculatePlayerPoints nm tables settings includePost removeWeek17 =
        .ok []) := by
  constructor
  · intro k p qb rb wr dline oline combo
    unfold dlListOf
    cases hk : tableContains k combo <;>
      cases hp : tableContains p combo <;>
      cases hqb : tableContains qb combo <;>
      cases hrb : tableContains rb combo <;>
      cases hwr : tableContains wr combo <;>
      cases hdl : tableContains dline combo <;>
      simp [findTable, hk, hp, hqb, hrb, hwr, hdl]
  · intro nm combo tables settings includePost removeWeek17 hn hnone hne
    obtain ⟨tl, hft, htl⟩ := findTable_of_none combo tables hnone hne
    rw [calc_eq nm tables settings includePost removeWeek17 combo tl hn hft]
    have hfr : filterPlayerRows tl combo includePost removeWeek17 = [] := by
      unfold filterPlayerRows
      rw [List.filter_eq_nil_iff]
      intro r hr
      have hname : (pyUpper r.name == combo) = false := by
        unfold tableContains at htl
        rw [List.any_eq_false] at htl
        have h2 := htl r hr
        revert h2
        cases pyUpper r.name == combo <;> simp
      simp [rowPass, hname]
    rw [hfr]
    rfl

/-- C1 witness: with one loaded table not containing John Smith, the
calculation succeeds with an empty series instead of failing. -/
theorem c1_first_table_and_fallthrough_witness :
    CalculatePlayerPoints "John Smith" [emptyTable] defaultLeagueSettings
      true true = .ok [] :=
  c1_first_table_and_fallthrough.2 "John Smith" "SMITH, JOHN" [emptyTable]
    defaultLeagueSettings true true rfl
    (by intro u hu; rw [List.mem_singleton] at hu; subst hu; rfl) (by simp)

/-- C2 (code bug): on a loaded registry holding one profile,
`ChangeLeagueSettings` installs the new rules and then raises
`TypeError` — `UpdatePlayerScores` calls `CalculatePlayerPoints` without
the required `league_settings` argument — so the stored profile keeps
its series computed under the OLD rules, while a fresh
`CalculatePlayerPoints` under the new rules returns a different series:
a stale profile is left behind, contradicting the claim. -/
theorem c2_changeSettings_typeError :
    (ChangeLeagueSettings staleAnalyzer newSettings).2 = some PyErr.typeError ∧
    (ChangeLeagueSettings staleAnalyzer newSettings).1.players =
      staleAnalyzer.players ∧
    (ChangeLeagueSettings staleAnalyzer newSettings).1.league_settings =
      newSettings ∧
    CalculatePlayerPoints "John Smith"
      (dlListOf sampleTable emptyTable emptyTable emptyTable emptyTable
        emptyTable emptyTable)
      newSettings false true = .ok [(2010, 100)] ∧
    staleAnalyzer.players.map (·.league_points) ≠
      [some [((2010 : Int), (100 : ℚ))]] := by
  refine ⟨rfl, rfl, rfl, by with_unfolding_all rfl, ?_⟩
  with_unfolding_all decide

/-- C10: a successful `AddPlayer` appends exactly one new profile at the
end of the player list and changes nothing else: the previously stored
profiles, the active scoring rules and the loaded stat tables are all
unchanged, and the new profile carries the requested name. -/
theorem c10_addPlayer_frame (st : FFBAnalyzer) (nm : String)
    (st2 : FFBAnalyzer) (p : PlayerProfile)
    (h : AddPlayer st nm = .ok (st2, p)) :
    st2.players = st.players ++ [p] ∧
    st2.league_settings = st.league_settings ∧
    st2.dl_list = st.dl_list ∧
    p.name = nm := by
  simp only [AddPlayer] at h
  split at h
  · simp at h
  · simp at h
  · split at h
    · simp at h
    · simp only [Except.ok.injEq, Prod.mk.injEq] at h
      obtain ⟨h1, h2⟩ := h
      subst h2
      rw [← h1]
      exact ⟨rfl, rfl, rfl, rfl⟩

/-- C10 witness: adding John Smith to the loaded registry appends his
profile and leaves settings and tables unchanged. -/
theorem c10_addPlayer_frame_witness :
    analyzerAfterAdd.players = loadedAnalyzer.players ++ [addedProfile] ∧
    analyzerAfterAdd.league_settings = loadedAnalyzer.league_settings ∧
    analyzerAfterAdd.dl_list = loadedAnalyzer.dl_list ∧
    addedProfile.name = "John Smith" :=
  c10_addPlayer_frame loadedAnalyzer "John Smith" analyzerAfterAdd addedProfile
    (by with_unfolding_all rfl)

/-- C8: a player name that does not split into exactly two parts — by
`split(' ', maxsplit=1)`, any name without a space — makes
`CalculatePlayerPoints` fail with the tuple-unpacking `ValueError` (the
spec's InvalidPlayerName), whatever the tables, settings and flags. -/
theorem c8_invalid_name (nm : String) (tables : List StatTable)
    (settings : List (String × ℚ)) (includePost removeWeek17 : Bool)
    (h : (pySplit1 nm).length ≠ 2) :
    CalculatePlayerPoints nm tables settings includePost removeWeek17 =
      .error .valueError := by
  unfold CalculatePlayerPoints normalizeName
  rcases hs : pySplit1 nm with _ | ⟨a, _ | ⟨b, _ | ⟨c, rest⟩⟩⟩
  · rfl
  · rfl
  · exact absurd (by rw [hs]; rfl : (pySplit1 nm).length = 2) h
  · rfl

/-- C8 witness: the single-token name "Prince" fails with the
InvalidPlayerName `ValueError`. -/
theorem c8_invalid_name_witness :
    CalculatePlayerPoints "Prince" [] defaultLeagueSettings false true =
      .error .valueError :=
  c8_invalid_name "Prince" [] defaultLeagueSettings false true (by decide)

end FFB
